import Mathlib

/-!
Shallow embedding of the `argh-demo` command-line program.

The repository has three Rust source files:

* `src/main.rs` — defines `DemoCli` with a `SubCommands` enum whose only
  variant is `Add(AddOptions)` (options `--num1`, `--num2` of type `u16`),
  dispatches on the parsed subcommand and calls an inline `add` function
  that prints `"{num1} + {num2} = {num1 + num2}"`.
* `src/commands/add.rs` — a standalone `AddOptions` struct (same shape) and
  an `execute` function printing the same line.
* `src/commands/sub.rs` — a `SubOptions` struct with `i16` options and an
  `execute` function printing `"{num1} - {num2} = {num1 - num2}"`.

Note that `main.rs` contains no `mod commands;` declaration: the files under
`src/commands/` are not part of the compiled binary, and the `SubCommands`
enum registers only the `add` subcommand.

Machine integers are embedded as `Nat` (for `u16`, with the bound `≤ 65535`
enforced where the source enforces it) and `Int` (for `i16`, with the range
`[-32768, 32767]`).  A Rust unchecked-arithmetic panic (the debug-build
behaviour the spec designates as the reference behaviour) is embedded as
`Option.none` for a pure arithmetic step and as `ExitStatus.abort` at the
process level.  Each `println!` call contributes one newline-terminated
line to the `stdout` list of the process outcome.
-/

/-- Exit of a process: a normal exit with a status code, or an abort
caused by a Rust panic. -/
inductive ExitStatus where
  | code (n : Nat)
  | abort
deriving DecidableEq, Repr

/-- Observable outcome of one process invocation: the newline-terminated
lines written to standard output, the text written to standard error, and
the exit status. -/
structure ProcOut where
  stdout : List String
  stderr : List String
  exit : ExitStatus
deriving DecidableEq, Repr

/-- Parse a list of decimal digit characters into a natural number,
left to right; any non-digit character fails the parse. -/
def parseDecDigits : List Char → Nat → Option Nat
  | [], acc => some acc
  | c :: cs, acc =>
    if c.isDigit then parseDecDigits cs (acc * 10 + (c.toNat - 48)) else none

/-- Range check of Rust's `u16::from_str`: a parsed value above 65535 is an
out-of-range error. -/
def chkU16 (n : Nat) : Option Nat :=
  if n ≤ 65535 then some n else none

/-- Rust's `u16::from_str`, used by argh to convert the value token of a
`u16` option: an optional leading plus sign, then one or more decimal
digits, and the value must fit in 16 bits; everything else is an error. -/
def u16FromStr (s : String) : Option Nat :=
  match s.data with
  | [] => none
  | c :: cs =>
    if c = '+' then
      if cs = [] then none else (parseDecDigits cs 0).bind chkU16
    else
      (parseDecDigits (c :: cs) 0).bind chkU16

/-- The `AddOptions` struct of `src/main.rs`: two `u16` options. -/
structure AddOptions where
  num1 : Nat
  num2 : Nat
deriving DecidableEq, Repr

/-- Parse errors the argument-parsing layer can report. -/
inductive CliError where
  | noSubcommand
  | unknownCommand (tok : String)
  | missingValue (opt : String)
  | badValue (opt val : String)
  | duplicateOption (opt : String)
  | missingOption (opt : String)
  | unrecognizedArg (tok : String)
deriving DecidableEq, Repr

/-- The subcommand names registered in the `SubCommands` enum of
`src/main.rs` (only the `Add` variant, declared with name `"add"`). -/
def subcommandNames : List String := ["add"]

/-- Modelled from the spec: the argument-parsing layer emits a usage
message; the exact rendering is produced by the external argh library, so
it is modelled as a usage line followed by the list of registered
subcommands. -/
def usageText : String :=
  "Usage: argh-demo <command> [<args>]" ++ " Commands: " ++
    String.intercalate ", " subcommandNames

/-- Modelled from the spec: rendering of one parse error, as written by the
external argh library to standard error: a description of the error
followed by the usage text. -/
def renderError (e : CliError) : String :=
  (match e with
   | .noSubcommand => "no subcommand specified"
   | .unknownCommand tok => "Unrecognized command: " ++ tok
   | .missingValue opt => "No value provided for option " ++ opt
   | .badValue opt val => "Error parsing option " ++ opt ++ " with value " ++ val
   | .duplicateOption opt => "Duplicate values provided for option " ++ opt
   | .missingOption opt => "Required options not provided: " ++ opt
   | .unrecognizedArg tok => "Unrecognized argument: " ++ tok) ++ "\n" ++ usageText

/-- Process outcome of a failed parse: nothing on standard output, the
rendered error (with usage text) on standard error, exit code 1. -/
def errorOut (e : CliError) : ProcOut :=
  { stdout := [], stderr := [renderError e], exit := .code 1 }

/-- The scan of the token list performed by argh for the derived
`AddOptions` parser of `src/main.rs`: each `--num1` / `--num2` flag
consumes the following token as its value and converts it with `u16`
parsing; unknown tokens, missing or unparseable values, duplicate options
and missing required options are errors. -/
def parseAddArgs : List String → Option Nat → Option Nat →
    Except CliError AddOptions
  | [], some n1, some n2 => .ok ⟨n1, n2⟩
  | [], none, _ => .error (.missingOption "--num1")
  | [], some _, none => .error (.missingOption "--num2")
  | a :: rest, n1, n2 =>
    if a = "--num1" then
      match rest with
      | [] => .error (.missingValue "--num1")
      | v :: rs =>
        match u16FromStr v with
        | some n =>
          if n1.isSome then .error (.duplicateOption "--num1")
          else parseAddArgs rs (some n) n2
        | none => .error (.badValue "--num1" v)
    else if a = "--num2" then
      match rest with
      | [] => .error (.missingValue "--num2")
      | v :: rs =>
        match u16FromStr v with
        | some n =>
          if n2.isSome then .error (.duplicateOption "--num2")
          else parseAddArgs rs n1 (some n)
        | none => .error (.badValue "--num2" v)
    else .error (.unrecognizedArg a)

/-- The line printed by the inline `add` function of `src/main.rs`
(`println!("{} + {} = {}", num1, num2, num1 + num2)`). -/
def addLine (num1 num2 : Nat) : String :=
  toString num1 ++ " + " ++ toString num2 ++ " = " ++ toString (num1 + num2)

/-- The inline `add` function of `src/main.rs`: `num1 + num2` is `u16`
addition, which panics (`none`) when the sum exceeds 65535, and otherwise
prints one line (`some`). -/
def mainAdd (num1 num2 : Nat) : Option String :=
  if num1 + num2 ≤ 65535 then some (addLine num1 num2) else none

/-- The `AddOptions` struct of `src/commands/add.rs` (textually a separate
struct from the one in `main.rs`, with the same two `u16` options). -/
structure AddOptionsCmd where
  num1 : Nat
  num2 : Nat
deriving DecidableEq, Repr

/-- The `execute` function of `src/commands/add.rs`: prints
`"{num1} + {num2} = {num1 + num2}"`, panicking (`none`) when the `u16`
sum overflows. -/
def addExecute (options : AddOptionsCmd) : Option String :=
  if options.num1 + options.num2 ≤ 65535 then
    some (addLine options.num1 options.num2)
  else none

/-- The `SubOptions` struct of `src/commands/sub.rs`: two `i16` options. -/
structure SubOptions where
  num1 : Int
  num2 : Int
deriving DecidableEq, Repr

/-- The line printed by the `execute` function of `src/commands/sub.rs`
(`println!("{} - {} = {}", num1, num2, num1 - num2)`). -/
def subLine (num1 num2 : Int) : String :=
  toString num1 ++ " - " ++ toString num2 ++ " = " ++ toString (num1 - num2)

/-- The `execute` function of `src/commands/sub.rs`: `num1 - num2` is `i16`
subtraction, which panics (`none`) when the difference leaves
`[-32768, 32767]`, and otherwise prints one line (`some`). -/
def subExecute (options : SubOptions) : Option String :=
  if -32768 ≤ options.num1 - options.num2 ∧ options.num1 - options.num2 ≤ 32767 then
    some (subLine options.num1 options.num2)
  else none

/-- Message of the Rust panic raised by an overflowing `u16` addition. -/
def addPanicMsg : String := "attempt to add with overflow"

/-- Dispatch step for the `add` subcommand: parse the remaining tokens as
`AddOptions` and run the inline `add` of `src/main.rs`; a parse failure is
a usage error, an arithmetic overflow is a panic (process abort). -/
def runAdd (rest : List String) : ProcOut :=
  match parseAddArgs rest none none with
  | .ok options =>
    match mainAdd options.num1 options.num2 with
    | some line => { stdout := [line], stderr := [], exit := .code 0 }
    | none => { stdout := [], stderr := [addPanicMsg], exit := .abort }
  | .error e => errorOut e

/-- The whole program of `src/main.rs` as a function of its argument
vector: the first token selects a subcommand of the `SubCommands` enum
(only `"add"` is registered); anything else is a parse error. -/
def runDemoCli : List String → ProcOut
  | [] => errorOut .noSubcommand
  | tok :: rest => if tok = "add" then runAdd rest else errorOut (.unknownCommand tok)

/-- The external state a process could in principle consult: environment
variables, file contents, data available on sockets — in addition to the
argument vector. -/
structure Env where
  argv : List String
  vars : List (String × String)
  files : List (String × String)
  sockets : List (String × String)
deriving Repr

/-- One run of the program in an environment: `main` obtains its input
exclusively from `argh::from_env`, which reads only the argument vector,
so the outcome is a function of `argv` alone. -/
def runInEnv (e : Env) : ProcOut := runDemoCli e.argv

/-! Helper lemmas shared by several claims. -/

/-- Every rendered parse error ends with the usage text. -/
theorem renderError_ends_with_usage (e : CliError) :
    ∃ m : String, renderError e = m ++ usageText := by
  cases e <;> exact ⟨_, rfl⟩

/-- A successful `AddOptions` parse only happens when each required option
was already set or its flag occurs in the remaining tokens. -/
theorem parseAddArgs_mem_of_ok (l : List String) (n1 n2 : Option Nat)
    (o : AddOptions) :
    parseAddArgs l n1 n2 = .ok o →
      (n1.isSome ∨ "--num1" ∈ l) ∧ (n2.isSome ∨ "--num2" ∈ l) := by
  induction l, n1, n2 using parseAddArgs.induct with
  | case1 n1 n2 => intro _; simp
  | case2 x => intro h; simp [parseAddArgs] at h
  | case3 val => intro h; simp [parseAddArgs] at h
  | case4 n1 n2 => intro h; simp [parseAddArgs] at h
  | case5 n1 n2 v rs n hv hs => intro h; simp [parseAddArgs, hv, hs] at h
  | case6 n1 n2 v rs n hv hs ih =>
    intro h
    simp [parseAddArgs, hv, hs] at h
    rcases ih h with ⟨h1, h2⟩
    constructor
    · exact Or.inr (by simp)
    · rcases h2 with h2 | h2
      · exact Or.inl h2
      · exact Or.inr (by simp [h2])
  | case7 n1 n2 v rs hv => intro h; simp [parseAddArgs, hv] at h
  | case8 n1 n2 hne => intro h; simp [parseAddArgs] at h
  | case9 n1 n2 v rs n hv hs hne => intro h; simp [parseAddArgs, hv, hs] at h
  | case10 n1 n2 v rs n hv hs hne ih =>
    intro h
    simp [parseAddArgs, hv, hs] at h
    rcases ih h with ⟨h1, h2⟩
    constructor
    · rcases h1 with h1 | h1
      · exact Or.inl h1
      · exact Or.inr (by simp [h1])
    · exact Or.inr (by simp)
  | case11 n1 n2 v rs hv hne => intro h; simp [parseAddArgs, hv, hne] at h
  | case12 a rest n1 n2 ha hb =>
    intro h
    rw [parseAddArgs.eq_def] at h
    simp [ha, hb] at h

/-- Claim C1: for u16 token values whose sum fits in u16, `add --num1 a
--num2 b` prints exactly the one line `"a + b = s"` with `s` the
mathematical sum, and exits with code 0. -/
theorem add_command_prints_sum (s1 s2 : String) (a b : Nat)
    (h1 : u16FromStr s1 = some a) (h2 : u16FromStr s2 = some b)
    (hsum : a + b ≤ 65535) :
    runDemoCli ["add", "--num1", s1, "--num2", s2] =
      { stdout := [addLine a b], stderr := [], exit := .code 0 } := by
  simp [runDemoCli, runAdd, parseAddArgs, h1, h2, mainAdd, hsum]

/-- Witness for C1 at the spec's own example: `add --num1 2 --num2 3`
prints `"2 + 3 = 5"` and exits 0. -/
theorem add_command_prints_sum_witness :
    (u16FromStr "2" = some 2 ∧ u16FromStr "3" = some 3 ∧ 2 + 3 ≤ 65535) ∧
    addLine 2 3 = "2 + 3 = 5" ∧
    runDemoCli ["add", "--num1", "2", "--num2", "3"] =
      { stdout := [addLine 2 3], stderr := [], exit := .code 0 } :=
  ⟨⟨by decide, by decide, by decide⟩, by decide,
   add_command_prints_sum "2" "3" 2 3 (by decide) (by decide) (by decide)⟩

/-- Claim C2 counterexample: `sub --num1 3 --num2 5` does not print
`"3 - 5 = -2"` with exit code 0; the `SubCommands` enum of `main.rs` has no
`Sub` variant, so the invocation is rejected with a usage error. -/
theorem sub_command_not_accepted_cex :
    runDemoCli ["sub", "--num1", "3", "--num2", "5"] =
      errorOut (.unknownCommand "sub") ∧
    (runDemoCli ["sub", "--num1", "3", "--num2", "5"]).stdout = [] ∧
    (runDemoCli ["sub", "--num1", "3", "--num2", "5"]).exit = .code 1 :=
  ⟨by decide, by decide, by decide⟩

/-- Claim C2 as amended: the `execute` function of `src/commands/sub.rs`
prints `"a - b = d"` for i16 operands whose difference fits in i16, but
that module is not wired into `main.rs`, so every `sub ...` invocation of
the program is rejected as an unknown subcommand. -/
theorem sub_execute_correct_but_unwired (a b : Int)
    (ha1 : -32768 ≤ a) (ha2 : a ≤ 32767) (hb1 : -32768 ≤ b) (hb2 : b ≤ 32767)
    (hd1 : -32768 ≤ a - b) (hd2 : a - b ≤ 32767) :
    subExecute ⟨a, b⟩ = some (subLine a b) ∧
    ∀ rest : List String,
      runDemoCli ("sub" :: rest) = errorOut (.unknownCommand "sub") := by
  constructor
  · simp [subExecute, hd1, hd2]
  · intro rest; simp [runDemoCli]

/-- Witness for the amended C2 at the spec's example operands 3 and 5:
`execute` would print `"3 - 5 = -2"`, and the CLI rejects `sub`. -/
theorem sub_execute_correct_but_unwired_witness :
    ((-32768 : Int) ≤ 3 ∧ (3 : Int) ≤ 32767 ∧ (-32768 : Int) ≤ 5 ∧
      (5 : Int) ≤ 32767 ∧ (-32768 : Int) ≤ 3 - 5 ∧ (3 : Int) - 5 ≤ 32767) ∧
    subLine 3 5 = "3 - 5 = -2" ∧
    (subExecute ⟨3, 5⟩ = some (subLine 3 5) ∧
      ∀ rest : List String,
        runDemoCli ("sub" :: rest) = errorOut (.unknownCommand "sub")) :=
  ⟨⟨by decide, by decide, by decide, by decide, by decide, by decide⟩,
   by decide,
   sub_execute_correct_but_unwired 3 5 (by decide) (by decide) (by decide)
     (by decide) (by decide) (by decide)⟩

/-- Claim C3: the arithmetic step is unchecked — a u16 sum above 65535
makes the process abort with a panic instead of a value or recoverable
error, and an i16 difference outside the declared range makes `execute` of
`sub.rs` panic. -/
theorem overflow_panics_process :
    runDemoCli ["add", "--num1", "65535", "--num2", "1"] =
      { stdout := [], stderr := [addPanicMsg], exit := .abort } ∧
    subExecute ⟨32767, -32768⟩ = none :=
  ⟨by decide, by decide⟩

/-- Claim C4: a value token that is a decimal numeral too large for u16
makes the parse fail — exit code 1, usage error on standard error, empty
standard output — whether it is the value of `--num1` or of `--num2`; no
wrapped or truncated value ever reaches the arithmetic. -/
theorem out_of_range_value_rejected (t : String) (n : Nat)
    (hd : parseDecDigits t.data 0 = some n) (hn : 65536 ≤ n) :
    (∀ s2 : String, runDemoCli ["add", "--num1", t, "--num2", s2] =
      errorOut (.badValue "--num1" t)) ∧
    (∀ (s1 : String) (m : Nat), u16FromStr s1 = some m →
      runDemoCli ["add", "--num1", s1, "--num2", t] =
        errorOut (.badValue "--num2" t)) := by
  have hu : u16FromStr t = none := by
    rcases ht : t.data with _ | ⟨c, cs⟩
    · rw [ht] at hd
      simp [parseDecDigits] at hd
      omega
    · rw [ht] at hd
      by_cases hc : c = '+'
      · subst hc
        have hpd : ('+').isDigit = false := by decide
        simp [parseDecDigits, hpd] at hd
      · simp only [u16FromStr, ht]
        simp [hc, hd, chkU16]
        omega
  constructor
  · intro s2
    simp [runDemoCli, runAdd, parseAddArgs, hu]
  · intro s1 m hm
    simp [runDemoCli, runAdd, parseAddArgs, hm, hu]

/-- Witness for C4 at the spec's example token 70000: the parse fails and
no output is produced. -/
theorem out_of_range_value_rejected_witness :
    (parseDecDigits "70000".data 0 = some 70000 ∧ 65536 ≤ 70000) ∧
    runDemoCli ["add", "--num1", "70000", "--num2", "1"] =
      errorOut (.badValue "--num1" "70000") :=
  ⟨⟨by decide, by decide⟩,
   (out_of_range_value_rejected "70000" 70000 (by decide) (by decide)).1 "1"⟩

/-- Claim C5: when either required option — `--num1` or `--num2` — never
occurs among the tokens of an `add` invocation, the process exits with
code 1, writes a message ending in the usage text to standard error, and
writes nothing to standard output. -/
theorem missing_required_option_fails (rest : List String)
    (h : "--num1" ∉ rest ∨ "--num2" ∉ rest) :
    ∃ e : CliError, runDemoCli ("add" :: rest) = errorOut e ∧
      ∃ m : String, renderError e = m ++ usageText := by
  have hrun : runDemoCli ("add" :: rest) = runAdd rest := by simp [runDemoCli]
  cases hp : parseAddArgs rest none none with
  | error e =>
    exact ⟨e, by rw [hrun]; simp [runAdd, hp], renderError_ends_with_usage e⟩
  | ok o =>
    exfalso
    rcases parseAddArgs_mem_of_ok rest none none o hp with ⟨h1, h2⟩
    rcases h with h | h
    · rcases h1 with h1 | h1
      · simp at h1
      · exact h h1
    · rcases h2 with h2 | h2
      · simp at h2
      · exact h h2

/-- Witness for C5 in both directions: omitting `--num1` in `add --num2 3`
and omitting `--num2` in `add --num1 2` each yield a usage error and no
output. -/
theorem missing_required_option_fails_witness :
    (("--num1" ∉ (["--num2", "3"] : List String)) ∧
      ("--num2" ∉ (["--num1", "2"] : List String))) ∧
    (∃ e : CliError, runDemoCli ("add" :: ["--num2", "3"]) = errorOut e ∧
      ∃ m : String, renderError e = m ++ usageText) ∧
    (∃ e : CliError, runDemoCli ("add" :: ["--num1", "2"]) = errorOut e ∧
      ∃ m : String, renderError e = m ++ usageText) :=
  ⟨⟨by decide, by decide⟩,
   missing_required_option_fails ["--num2", "3"] (Or.inl (by decide)),
   missing_required_option_fails ["--num1", "2"] (Or.inr (by decide))⟩

/-- Claim C6: a first token that is not a registered subcommand name makes
the process exit with code 1 and write a usage message — which lists the
registered subcommands, since `usageText` is built from `subcommandNames` —
to standard error, with nothing on standard output. -/
theorem unknown_subcommand_usage_error (tok : String) (rest : List String)
    (h : tok ∉ subcommandNames) :
    runDemoCli (tok :: rest) = errorOut (.unknownCommand tok) ∧
    renderError (.unknownCommand tok) =
      "Unrecognized command: " ++ tok ++ "\n" ++ usageText := by
  have hne : tok ≠ "add" := by simpa [subcommandNames] using h
  exact ⟨by simp [runDemoCli, hne], rfl⟩

/-- Witness for C6 at the unregistered subcommand name `mul`. -/
theorem unknown_subcommand_usage_error_witness :
    ("mul" ∉ subcommandNames) ∧
    (runDemoCli ["mul", "--num1", "2"] = errorOut (.unknownCommand "mul") ∧
      renderError (.unknownCommand "mul") =
        "Unrecognized command: " ++ "mul" ++ "\n" ++ usageText) :=
  ⟨by decide, unknown_subcommand_usage_error "mul" ["--num1", "2"] (by decide)⟩

/-- Claim C7: the outcome of a run is a function of the argument vector
alone — two environments with the same `argv` but different variables,
files and sockets produce identical output and exit status. -/
theorem deterministic_in_argv (e1 e2 : Env) (h : e1.argv = e2.argv) :
    runInEnv e1 = runInEnv e2 := by
  simp [runInEnv, h]

/-- Witness for C7: two environments differing in variables, files and
sockets but sharing `argv` produce the same outcome. -/
theorem deterministic_in_argv_witness :
    (Env.argv ⟨["add", "--num1", "2", "--num2", "3"],
        [("HOME", "/root")], [("/etc/conf", "x")], []⟩ =
      Env.argv ⟨["add", "--num1", "2", "--num2", "3"],
        [("LANG", "C")], [], [("sock", "y")]⟩) ∧
    runInEnv ⟨["add", "--num1", "2", "--num2", "3"],
        [("HOME", "/root")], [("/etc/conf", "x")], []⟩ =
      runInEnv ⟨["add", "--num1", "2", "--num2", "3"],
        [("LANG", "C")], [], [("sock", "y")]⟩ :=
  ⟨rfl, deterministic_in_argv _ _ rfl⟩

/-- Claim C8: the inline `add` of `main.rs` and `execute` of
`commands/add.rs` are behaviorally equivalent on u16 inputs — they print
the same line and panic on exactly the same inputs. -/
theorem main_add_equiv_add_execute (a b : Nat)
    (h1 : a ≤ 65535) (h2 : b ≤ 65535) :
    mainAdd a b = addExecute ⟨a, b⟩ := rfl

/-- Witness for C8 at the inputs 2 and 3. -/
theorem main_add_equiv_add_execute_witness :
    ((2 : Nat) ≤ 65535 ∧ (3 : Nat) ≤ 65535) ∧
    mainAdd 2 3 = addExecute ⟨2, 3⟩ :=
  ⟨⟨by decide, by decide⟩, main_add_equiv_add_execute 2 3 (by decide) (by decide)⟩

/-- Claim C9: for non-negative i16 operands the subtraction of
`commands/sub.rs` cannot overflow — `execute` terminates without panic and
prints the exact mathematical difference. -/
theorem sub_execute_nonneg_no_overflow (a b : Int)
    (ha0 : 0 ≤ a) (ha : a ≤ 32767) (hb0 : 0 ≤ b) (hb : b ≤ 32767) :
    subExecute ⟨a, b⟩ = some (subLine a b) := by
  have hd1 : -32768 ≤ a - b := by omega
  have hd2 : a - b ≤ 32767 := by omega
  simp [subExecute, hd1, hd2]

/-- Witness for C9 at the spec's example operands 5 and 3. -/
theorem sub_execute_nonneg_no_overflow_witness :
    ((0 : Int) ≤ 5 ∧ (5 : Int) ≤ 32767 ∧ (0 : Int) ≤ 3 ∧ (3 : Int) ≤ 32767) ∧
    subLine 5 3 = "5 - 3 = 2" ∧
    subExecute ⟨5, 3⟩ = some (subLine 5 3) :=
  ⟨⟨by decide, by decide, by decide, by decide⟩, by decide,
   sub_execute_nonneg_no_overflow 5 3 (by decide) (by decide) (by decide)
     (by decide)⟩

/-- Claim C10: every invocation that exits with code 0 writes exactly one
newline-terminated line to standard output and nothing to standard
error. -/
theorem success_single_line_frame (args : List String)
    (h : (runDemoCli args).exit = .code 0) :
    (runDemoCli args).stdout.length = 1 ∧ (runDemoCli args).stderr = [] := by
  rcases args with _ | ⟨tok, rest⟩
  · simp [runDemoCli, errorOut] at h
  · by_cases ht : tok = "add"
    · subst ht
      simp only [runDemoCli, if_true] at h ⊢
      cases hp : parseAddArgs rest none none with
      | error e => simp [runAdd, hp, errorOut] at h
      | ok o =>
        cases hm : mainAdd o.num1 o.num2 with
        | none => simp [runAdd, hp, hm] at h
        | some line => simp [runAdd, hp, hm]
    · simp [runDemoCli, ht, errorOut] at h

/-- Witness for C10 at the successful invocation `add --num1 2 --num2 3`. -/
theorem success_single_line_frame_witness :
    ((runDemoCli ["add", "--num1", "2", "--num2", "3"]).exit = .code 0) ∧
    ((runDemoCli ["add", "--num1", "2", "--num2", "3"]).stdout.length = 1 ∧
      (runDemoCli ["add", "--num1", "2", "--num2", "3"]).stderr = []) :=
  ⟨by decide, success_single_line_frame ["add", "--num1", "2", "--num2", "3"]
    (by decide)⟩
